import Mathlib

/-
Verification of the rslts repository: a TypeScript discriminated-union
Result type with two constructor helpers (src/index.ts), together with
the behaviours exercised by its test suite (divide, complexOperation,
fetchUserData) and documented in the README.

Modelling choices:
  * The TS union
      type Result<T, E = Error> =
        | { success: true; value: T }
        | { success: false; error: E }
    is embedded as an inductive with one constructor per union member.
    The runtime discriminant field `success`, and the payload fields,
    become total accessors (the payload accessors return Option because
    a JS read of the absent field yields undefined).
  * JS numbers are modelled as rationals: every value the repository
    computes with (10, 2, 5, 0, 1, 10/2, ...) is represented exactly,
    and JS division agrees with rational division on all of them.
  * A JS Error object is modelled by its observable fields used in the
    repository: name (the subtype tag, e.g. CustomError sets it), message,
    and the optional cause option passed to the Error constructor.
-/

/-- Embedding of the TS type Result<T, E>: a tagged union whose two
members are the success shape carrying a value of type T and the
failure shape carrying an error of type E. -/
inductive Result (T E : Type) : Type where
  | ok (value : T) : Result T E
  | err (error : E) : Result T E
deriving DecidableEq

/-- The runtime discriminant field success of a Result object:
true on the success member, false on the failure member. -/
def Result.success {T E : Type} : Result T E → Bool
  | .ok _ => true
  | .err _ => false

/-- Read of the value field: present (some) exactly on the success
member; reading it on the failure member yields undefined (none). -/
def Result.value? {T E : Type} : Result T E → Option T
  | .ok v => some v
  | .err _ => none

/-- Read of the error field: present (some) exactly on the failure
member; reading it on the success member yields undefined (none). -/
def Result.error? {T E : Type} : Result T E → Option E
  | .ok _ => none
  | .err e => some e

/-- Runtime behaviour of the constructor ok (src/index.ts line 5):
returns the object literal with success: true and value. The static
return annotation in the source is Result<T> with E defaulted to Error;
the static typing of the constructors is modelled separately below by
okRet and errRet. -/
def ok {T E : Type} (value : T) : Result T E :=
  Result.ok value

/-- Runtime behaviour of the constructor err (src/index.ts line 9):
returns the object literal with success: false and error. The static
return annotation in the source is Result<any, E>; see okRet / errRet
for the static typing. -/
def err {T E : Type} (error : E) : Result T E :=
  Result.err error

/-- A JS Error value as observed by the repository: its name field
(the subtype tag), its message, and the optional cause handed to the
Error constructor options. -/
inductive JSError : Type where
  | mk (name : String) (message : String) (cause : Option JSError) : JSError

/-- The name field of a JS Error value. -/
def JSError.name : JSError → String
  | .mk n _ _ => n

/-- The message field of a JS Error value. -/
def JSError.message : JSError → String
  | .mk _ m _ => m

/-- The cause field of a JS Error value. -/
def JSError.cause : JSError → Option JSError
  | .mk _ _ c => c

/-- new Error(msg): name is "Error", no cause. -/
def mkError (msg : String) : JSError :=
  JSError.mk "Error" msg none

/-- new Error(msg, options with cause c): name is "Error", cause set. -/
def mkErrorWithCause (msg : String) (c : JSError) : JSError :=
  JSError.mk "Error" msg (some c)

/-- new CustomError(msg) from the test file: calls super(message) and
sets this.name to "CustomError"; no cause. -/
def mkCustomError (msg : String) : JSError :=
  JSError.mk "CustomError" msg none

/-- The divide helper of the README and the test file:
if b is 0 return err(new Error("Division by zero")), else ok(a / b). -/
def divide (a b : ℚ) : Result ℚ JSError :=
  if b = 0 then err (mkError "Division by zero")
  else ok (a / b)

/-- complexOperation from the error-chaining test: runs divide 10 input;
on failure returns err(new Error("Complex operation failed", cause set
to the divide error)); on success returns ok of the value times 2. -/
def complexOperation (input : ℚ) : Result ℚ JSError :=
  match divide 10 input with
  | .err e => err (mkErrorWithCause "Complex operation failed" e)
  | .ok v => ok (v * 2)

/-- fetchUserData from the async test, modelled by its resolved value:
for userId <= 0 it resolves to err(new Error("Invalid user ID"));
otherwise mockData is "User Data" when userId is 1 and null otherwise,
and a null mockData resolves to err(new Error("User not found")).
The try/catch around the body is dead in this model: the body performs
no throwing operation, so the catch conversion branch is unreachable. -/
def fetchUserData (userId : ℚ) : Result String JSError :=
  if userId ≤ 0 then err (mkError "Invalid user ID")
  else
    let mockData : Option String := if userId = 1 then some "User Data" else none
    match mockData with
    | none => err (mkError "User not found")
    | some d => ok d

/-- A heap of Result objects, for the frame property: in JS every
object literal a constructor returns is a fresh allocation. The heap
is a list of cells; an address is an index into it. -/
structure Heap (T E : Type) : Type where
  cells : List (Result T E)

/-- Allocation behaviour of ok on a heap: appends the freshly built
success object and returns its (fresh) address. -/
def okAlloc {T E : Type} (h : Heap T E) (value : T) : Heap T E × Nat :=
  (⟨h.cells ++ [ok value]⟩, h.cells.length)

/-- Allocation behaviour of err on a heap: appends the freshly built
failure object and returns its (fresh) address. -/
def errAlloc {T E : Type} (h : Heap T E) (error : E) : Heap T E × Nat :=
  (⟨h.cells ++ [err error]⟩, h.cells.length)

/-- Discriminant inspection of the Result stored at an address: a pure
read of the success field. It takes no ownership of the heap and
returns no heap, so by its very type it cannot write any cell. -/
def readSuccess {T E : Type} (h : Heap T E) (a : Nat) : Option Bool :=
  (h.cells[a]?).map Result.success

/-
Static typing of the two constructors. The runtime embedding above is
type-erased, so the genericity of the declared signatures has to be
modelled at the level of TypeScript types. Ty is the fragment of the
TS type language that appears in the repository: number, string, Error,
the test-file class CustomError (whose members are structurally exactly
those of Error), any, and the Result union itself.
-/

/-- Fragment of the TS type language used by the repository. -/
inductive Ty : Type where
  | num : Ty
  | str : Ty
  | errorTy : Ty
  | customErrorTy : Ty
  | anyTy : Ty
  | result (t e : Ty) : Ty
deriving DecidableEq

/-- TS assignability on the Ty fragment. any is assignable to and from
every type; Error and CustomError are mutually assignable because the
class adds no members (TS compares structurally); the Result union is
assignable member-wise, which reduces to assignability of the value
slot and of the error slot (the success: true member can never match
the success: false member because the literal tags differ). -/
def assignable : Ty → Ty → Bool
  | .anyTy, _ => true
  | _, .anyTy => true
  | .num, .num => true
  | .str, .str => true
  | .errorTy, .errorTy => true
  | .errorTy, .customErrorTy => true
  | .customErrorTy, .errorTy => true
  | .customErrorTy, .customErrorTy => true
  | .result t1 e1, .result t2 e2 => assignable t1 t2 && assignable e1 e2
  | _, _ => false

/-- Declared return type of ok applied at success type t
(src/index.ts line 5): Result<T>, i.e. the error parameter is not
generic but defaulted to Error. -/
def okRet (t : Ty) : Ty :=
  Ty.result t Ty.errorTy

/-- Declared return type of err applied at error type e
(src/index.ts line 9): Result<any, E>, i.e. the success slot is any. -/
def errRet (e : Ty) : Ty :=
  Ty.result Ty.anyTy e

/-- Assignability is reflexive on the Ty fragment. -/
theorem assignable_refl (t : Ty) : assignable t t = true := by
  induction t with
  | num => rfl
  | str => rfl
  | errorTy => rfl
  | customErrorTy => rfl
  | anyTy => rfl
  | result t e iht ihe => simp [assignable, iht, ihe]


/-- C1: for every value v, ok v returns a Result whose discriminant
field success is true and whose success payload is exactly v; ok is
total (no validation) and the payload equation preserves v itself. -/
theorem C1_ok_success_and_payload_identity (T E : Type) (v : T) :
    (ok v : Result T E).success = true ∧ (ok v : Result T E).value? = some v := by
  exact ⟨rfl, rfl⟩

/-- C1 witness at a concrete input. -/
theorem C1_witness :
    (ok (42 : ℚ) : Result ℚ JSError).success = true ∧
    (ok (42 : ℚ) : Result ℚ JSError).value? = some 42 :=
  C1_ok_success_and_payload_identity ℚ JSError 42

/-- C2: for every error value e, err e returns a Result whose
discriminant field success is false and whose error payload is exactly
e; in particular for a subtype-tagged JS error (CustomError) both the
message and the subtype tag survive retrieval. -/
theorem C2_err_failure_and_payload_identity :
    (∀ (T E : Type) (e : E),
      (err e : Result T E).success = false ∧ (err e : Result T E).error? = some e) ∧
    (∀ m : String,
      ((err (mkCustomError m) : Result ℚ JSError).error?).map JSError.name =
        some "CustomError" ∧
      ((err (mkCustomError m) : Result ℚ JSError).error?).map JSError.message = some m) := by
  refine ⟨fun T E e => ⟨rfl, rfl⟩, fun m => ⟨rfl, rfl⟩⟩

/-- C2 witness at the concrete custom error of the test file. -/
theorem C2_witness :
    (err (mkCustomError "Custom test error") : Result ℚ JSError).success = false ∧
    ((err (mkCustomError "Custom test error") : Result ℚ JSError).error?).map
      JSError.message = some "Custom test error" :=
  ⟨(C2_err_failure_and_payload_identity.1 ℚ JSError (mkCustomError "Custom test error")).1,
   (C2_err_failure_and_payload_identity.2 "Custom test error").2⟩

/-- C3: for every Result, the discriminant is exhaustive (success is
true or false) and mutually exclusive (never both), and the populated
payload field is consistent with it: the value field is present exactly
when success is true and the error field exactly when it is false. -/
theorem C3_discriminant_consistent (T E : Type) (r : Result T E) :
    (r.success = true ∨ r.success = false) ∧
    ¬(r.success = true ∧ r.success = false) ∧
    (r.success = true ↔ (r.value?).isSome = true) ∧
    (r.success = false ↔ (r.error?).isSome = true) := by
  cases r <;> simp [Result.success, Result.value?, Result.error?]

/-- C3 witness at a concrete Result. -/
theorem C3_witness :
    ((ok (7 : ℚ) : Result ℚ JSError).success = true ↔
      (((ok (7 : ℚ) : Result ℚ JSError)).value?).isSome = true) ∧
    ((ok (7 : ℚ) : Result ℚ JSError).success = false ↔
      (((ok (7 : ℚ) : Result ℚ JSError)).error?).isSome = true) :=
  ⟨(C3_discriminant_consistent ℚ JSError (ok 7)).2.2.1,
   (C3_discriminant_consistent ℚ JSError (ok 7)).2.2.2⟩

/-- C4: divide returns err (Error "Division by zero") whenever the
divisor is 0 and ok (a / b) otherwise; concretely divide 10 2 is a
success with payload 5 and divide 10 0 is a failure whose error
message is "Division by zero". -/
theorem C4_divide_spec :
    (∀ a : ℚ, divide a 0 = err (mkError "Division by zero")) ∧
    (∀ a b : ℚ, b ≠ 0 → divide a b = ok (a / b)) ∧
    divide 10 2 = ok 5 ∧
    (divide 10 0).success = false ∧
    ((divide 10 0).error?).map JSError.message = some "Division by zero" := by
  refine ⟨fun a => by simp [divide], fun a b hb => by simp [divide, hb], ?_, ?_, ?_⟩
  · norm_num [divide]
  · norm_num [divide, err, Result.success]
  · norm_num [divide, err, Result.error?, mkError, JSError.message]

/-- C4 witness discharging the nonzero-divisor hypothesis at a
concrete input and using the zero-divisor clause at another. -/
theorem C4_witness :
    (2 : ℚ) ≠ 0 ∧ divide 8 2 = ok (8 / 2) ∧ divide 4 0 = err (mkError "Division by zero") :=
  ⟨by decide, C4_divide_spec.2.1 8 2 (by decide), C4_divide_spec.1 4⟩

/-- C5: complexOperation 0 calls divide 10 0, observes its failure, and
returns a failure whose message is "Complex operation failed" while its
cause field holds (a non-null reference to) the original divide error. -/
theorem C5_complexOperation_wraps_cause :
    (complexOperation 0).success = false ∧
    ((complexOperation 0).error?).map JSError.message = some "Complex operation failed" ∧
    ((complexOperation 0).error?).bind JSError.cause = some (mkError "Division by zero") := by
  refine ⟨?_, ?_, ?_⟩ <;>
    simp [complexOperation, divide, err, ok, mkErrorWithCause, mkError,
      Result.success, Result.error?, JSError.message, JSError.cause]

/-- C6: the resolved value of fetchUserData is err (Error "Invalid user
ID") for input 0 and ok "User Data" for input 1; in both cases the
outcome is delivered as an ordinary Result value (fetchUserData is a
total function into Result and has no exceptional exit). -/
theorem C6_fetchUserData_concrete :
    fetchUserData 0 = err (mkError "Invalid user ID") ∧
    fetchUserData 1 = ok "User Data" := by
  constructor
  · norm_num [fetchUserData]
  · norm_num [fetchUserData]

/-- C7 counterexample: the claim says the result of ok can be typed as
Result<T, E> for arbitrary T and E, but the declared return type of ok
is Result<T> with the error parameter fixed to the default Error, and
at T = number, E = string that type is not assignable to
Result<number, string>. -/
theorem C7_counterexample :
    assignable (okRet Ty.num) (Ty.result Ty.num Ty.str) = false := by
  decide

/-- C7 amended: the result of err (declared Result<any, E>) can be
typed as Result<T, E> for every success type T, via the any in its
success slot; the result of ok (declared Result<T, Error>) can be typed
as Result<T, E> exactly when Error is assignable to E (for example
E = Error, E = any, or the structurally identical CustomError of the
test file), not for arbitrary E. -/
theorem C7_amended_genericity (t e : Ty) :
    assignable (errRet e) (Ty.result t e) = true ∧
    (assignable (okRet t) (Ty.result t e) = true ↔ assignable Ty.errorTy e = true) := by
  constructor
  · cases t <;> simp [errRet, assignable, assignable_refl]
  · cases e <;> simp [okRet, assignable, assignable_refl]

/-- C7 witness at the concrete types of the type-narrowing test
(Result<number, CustomError> annotated on an ok result). -/
theorem C7_witness :
    assignable (errRet Ty.customErrorTy) (Ty.result Ty.num Ty.customErrorTy) = true ∧
    (assignable (okRet Ty.num) (Ty.result Ty.num Ty.customErrorTy) = true ↔
      assignable Ty.errorTy Ty.customErrorTy = true) :=
  C7_amended_genericity Ty.num Ty.customErrorTy

/-- C8: the constructors never mutate an existing Result: allocating a
new success or failure object leaves every already-allocated cell
unchanged (also as seen through discriminant inspection), and the new
outcome lives in a freshly allocated cell at a previously unused
address. -/
theorem C8_no_mutation_fresh_allocation (T E : Type) (h : Heap T E) (v : T) (e : E)
    (a : Nat) (ha : a < h.cells.length) :
    (okAlloc h v).1.cells[a]? = h.cells[a]? ∧
    (errAlloc h e).1.cells[a]? = h.cells[a]? ∧
    readSuccess (okAlloc h v).1 a = readSuccess h a ∧
    readSuccess (errAlloc h e).1 a = readSuccess h a ∧
    a ≠ (okAlloc h v).2 ∧
    a ≠ (errAlloc h e).2 ∧
    (okAlloc h v).1.cells[(okAlloc h v).2]? = some (ok v) ∧
    (errAlloc h e).1.cells[(errAlloc h e).2]? = some (err e) := by
  refine ⟨?_, ?_, ?_, ?_, ?_, ?_, ?_, ?_⟩ <;>
    simp [okAlloc, errAlloc, readSuccess, List.getElem?_append_left ha,
      List.getElem?_concat_length, Nat.ne_of_lt ha]

/-- C8 witness at a concrete one-cell heap. -/
theorem C8_witness :
    0 < (Heap.mk [ok 1] : Heap ℕ ℕ).cells.length ∧
    (okAlloc (Heap.mk [ok 1] : Heap ℕ ℕ) 2).1.cells[0]? =
      (Heap.mk [ok 1] : Heap ℕ ℕ).cells[0]? ∧
    (errAlloc (Heap.mk [ok 1] : Heap ℕ ℕ) 3).1.cells[0]? =
      (Heap.mk [ok 1] : Heap ℕ ℕ).cells[0]? :=
  ⟨by decide,
   (C8_no_mutation_fresh_allocation ℕ ℕ ⟨[ok 1]⟩ 2 3 0 (by decide)).1,
   (C8_no_mutation_fresh_allocation ℕ ℕ ⟨[ok 1]⟩ 2 3 0 (by decide)).2.1⟩

/-- C9: the two constructors are disjoint (an ok result never equals an
err result) and each is injective in its payload. -/
theorem C9_constructors_disjoint_injective (T E : Type) (v v1 v2 : T) (e e1 e2 : E) :
    (ok v : Result T E) ≠ err e ∧
    ((ok v1 : Result T E) = ok v2 ↔ v1 = v2) ∧
    ((err e1 : Result T E) = err e2 ↔ e1 = e2) := by
  refine ⟨?_, ?_, ?_⟩ <;> simp [ok, err]

/-- C9 witness at concrete payloads. -/
theorem C9_witness :
    (ok 0 : Result ℕ ℕ) ≠ err 0 ∧
    ((ok 1 : Result ℕ ℕ) = ok 2 ↔ (1 : ℕ) = 2) ∧
    ((err 3 : Result ℕ ℕ) = err 4 ↔ (3 : ℕ) = 4) :=
  C9_constructors_disjoint_injective ℕ ℕ 0 1 2 0 3 4

/-- C10: the failure branches of fetchUserData cover whole ranges: every
userId at most 0 (negative values included) resolves to the failure with
message "Invalid user ID", and every positive userId other than 1
resolves to the failure with message "User not found". -/
theorem C10_fetchUserData_ranges :
    (∀ userId : ℚ, userId ≤ 0 → fetchUserData userId = err (mkError "Invalid user ID")) ∧
    (∀ userId : ℚ, 0 < userId → userId ≠ 1 →
      fetchUserData userId = err (mkError "User not found")) := by
  constructor
  · intro u hu; simp [fetchUserData, hu]
  · intro u hu hne; simp [fetchUserData, not_le.mpr hu, hne]

/-- C10 witness: a negative userId and the userId 2 from the test. -/
theorem C10_witness :
    (-5 : ℚ) ≤ 0 ∧ (0 : ℚ) < 2 ∧ (2 : ℚ) ≠ 1 ∧
    fetchUserData (-5) = err (mkError "Invalid user ID") ∧
    fetchUserData 2 = err (mkError "User not found") :=
  ⟨by decide, by decide, by decide,
   C10_fetchUserData_ranges.1 (-5) (by decide),
   C10_fetchUserData_ranges.2 2 (by decide) (by decide)⟩
